import Mathlib

/-!
# Math-Arena: shallow embedding and verification of the simulation core

This file embeds the simulation core of the Math-Arena repository in Lean 4 and
proves (or refutes) the specification claims about it.

Embedding conventions:
* JavaScript numbers are idealized as exact rationals (`ℚ`) for coordinates,
  speeds and random draws, and as integers (`ℤ`/`ℕ`) where the source only ever
  holds integers (wave counters, scores, health, millisecond timestamps).
* `Math.random()` draws are passed explicitly: each randomized function receives
  either individual draws or a stream `rand : ℕ → ℚ` consumed in source order;
  theorems about randomized outputs quantify over draws in `[0, 1)`.
* `Date.now()` is passed explicitly as a millisecond timestamp `now : ℤ`.
* `Math.floor` is `Int.floor`, `Math.ceil` is `Int.ceil`, and `Math.round` is
  `fun x => ⌊x + 1/2⌋` (JavaScript rounds half toward +∞).
* `Math.sqrt` has no exact computable counterpart on `ℚ`.  Distance comparisons
  (`sqrt d ≤ b` with `b ≥ 0`) are embedded as the equivalent `d ≤ b ^ 2`; the
  one stored square root (the spawn distance in `createMonster`) is passed as an
  explicit `spawnDistance` argument, constrained by theorems where its value
  matters.
-/

namespace MathArena

/-- The difficulty union type `"easy" | "medium" | "hard"` used throughout. -/
inductive Difficulty where
  | easy
  | medium
  | hard
deriving DecidableEq, Repr

/-- A 2D point, as in `gameUtils.ts`. -/
structure Point where
  x : ℚ
  y : ℚ
deriving DecidableEq, Repr

/-- `Math.round` in JavaScript: round half toward positive infinity. -/
def jsRound (x : ℚ) : ℤ := ⌊x + 1 / 2⌋

/-- The exact rational value of the IEEE-754 double `Math.PI`. -/
def jsPi : ℚ := 884279719003555 / 281474976710656

/-! ## Question generator (client variant, `QuestionGenerator`)

Embeds the question generator class: the `Question` record, the wave-based
difficulty adjustment, the per-difficulty question-type menus, and the eleven
question creators dispatched by `createQuestion`. -/

/-- The `Question` interface.  `answer` is an integer in every reachable branch
of the generator; `type` keeps the source's string representation. -/
structure Question where
  id : String
  text : String
  answer : ℤ
  difficulty : Difficulty
  type : String
  timeLimit : ℤ
  explanation : Option String := none
  category : Option String := none
deriving DecidableEq, Repr

/-- `QuestionGenerator.adjustDifficultyForWave`: wave-based difficulty
escalation overriding the requested base difficulty. -/
def adjustDifficultyForWave (baseDifficulty : Difficulty) (wave : ℤ) : Difficulty :=
  if wave ≤ 3 then .easy
  else if wave ≤ 6 then (if baseDifficulty = .easy then .easy else .medium)
  else if wave ≤ 10 then (if baseDifficulty = .easy then .medium else .hard)
  else .hard

/-- `QuestionGenerator.getQuestionTypes`: the per-difficulty menus of question
types.  (The source's `default` branch is unreachable for the union type.) -/
def getQuestionTypes : Difficulty → List String
  | .easy => ["addition", "subtraction", "multiplication"]
  | .medium => ["addition", "subtraction", "multiplication", "division", "fractions",
      "decimals", "word_problem"]
  | .hard => ["addition", "subtraction", "multiplication", "division", "mixed", "fractions",
      "decimals", "percentages", "word_problem", "algebra", "geometry"]

/-- `createAdditionQuestion`.  Draws: `rand 0`, `rand 1` for the two operands. -/
def createAdditionQuestion (id : String) (difficulty : Difficulty) (timeLimit : ℤ)
    (rand : ℕ → ℚ) : Question :=
  let (a, b) : ℤ × ℤ :=
    match difficulty with
    | .easy => (⌊rand 0 * 20⌋ + 1, ⌊rand 1 * 20⌋ + 1)
    | .medium => (⌊rand 0 * 50⌋ + 10, ⌊rand 1 * 50⌋ + 10)
    | .hard => (⌊rand 0 * 100⌋ + 20, ⌊rand 1 * 100⌋ + 20)
  { id := id
    text := s!"{a} + {b} = ?"
    answer := a + b
    difficulty := difficulty
    type := "addition"
    timeLimit := timeLimit
    category := some "arithmetic" }

/-- `createSubtractionQuestion`: operands swapped when needed so the result is
non-negative. -/
def createSubtractionQuestion (id : String) (difficulty : Difficulty) (timeLimit : ℤ)
    (rand : ℕ → ℚ) : Question :=
  let (a0, b0) : ℤ × ℤ :=
    match difficulty with
    | .easy => (⌊rand 0 * 20⌋ + 10, ⌊rand 1 * 10⌋ + 1)
    | .medium => (⌊rand 0 * 50⌋ + 25, ⌊rand 1 * 25⌋ + 5)
    | .hard => (⌊rand 0 * 100⌋ + 50, ⌊rand 1 * 50⌋ + 10)
  let (a, b) : ℤ × ℤ := if b0 > a0 then (b0, a0) else (a0, b0)
  { id := id
    text := s!"{a} - {b} = ?"
    answer := a - b
    difficulty := difficulty
    type := "subtraction"
    timeLimit := timeLimit
    category := some "arithmetic" }

/-- `createMultiplicationQuestion`. -/
def createMultiplicationQuestion (id : String) (difficulty : Difficulty) (timeLimit : ℤ)
    (rand : ℕ → ℚ) : Question :=
  let (a, b) : ℤ × ℤ :=
    match difficulty with
    | .easy => (⌊rand 0 * 5⌋ + 2, ⌊rand 1 * 5⌋ + 2)
    | .medium => (⌊rand 0 * 8⌋ + 3, ⌊rand 1 * 8⌋ + 3)
    | .hard => (⌊rand 0 * 10⌋ + 5, ⌊rand 1 * 10⌋ + 5)
  { id := id
    text := s!"{a} × {b} = ?"
    answer := a * b
    difficulty := difficulty
    type := "multiplication"
    timeLimit := timeLimit
    category := some "arithmetic" }

/-- `createDivisionQuestion`: the dividend is constructed as
`divisor * quotient`, guaranteeing an exact integer quotient. -/
def createDivisionQuestion (id : String) (difficulty : Difficulty) (timeLimit : ℤ)
    (rand : ℕ → ℚ) : Question :=
  let (divisor, quotient) : ℤ × ℤ :=
    match difficulty with
    | .easy => (⌊rand 0 * 5⌋ + 2, ⌊rand 1 * 10⌋ + 1)
    | .medium => (⌊rand 0 * 8⌋ + 2, ⌊rand 1 * 15⌋ + 2)
    | .hard => (⌊rand 0 * 10⌋ + 3, ⌊rand 1 * 20⌋ + 5)
  let dividend := divisor * quotient
  { id := id
    text := s!"{dividend} ÷ {divisor} = ?"
    answer := quotient
    difficulty := difficulty
    type := "division"
    timeLimit := timeLimit
    category := some "arithmetic" }

/-- `createMixedQuestion`: three operands and two operators drawn from
`["+", "-", "×"]`.  Draws in source order: `rand 0`, `rand 1` for the two
operators, `rand 2`–`rand 4` for the operands; the negative-result fallback
calls `createAdditionQuestion` with the subsequent draws.

Note the source computes `result = op2 === "+" ? temp + c : temp - c` inside
the `op1 === "×"` branch, so when both operators are `×` the second `×` lands
in the subtraction arm while the displayed text shows `a × b × c`. -/
def createMixedQuestion (id : String) (difficulty : Difficulty) (timeLimit : ℤ)
    (rand : ℕ → ℚ) : Question :=
  let operations : List String := ["+", "-", "×"]
  let op1 := operations.getD (⌊rand 0 * 3⌋).toNat "+"
  let op2 := operations.getD (⌊rand 1 * 3⌋).toNat "+"
  let (a, b, c) : ℤ × ℤ × ℤ :=
    match difficulty with
    | .easy => (⌊rand 2 * 10⌋ + 1, ⌊rand 3 * 10⌋ + 1, ⌊rand 4 * 10⌋ + 1)
    | .medium => (⌊rand 2 * 15⌋ + 2, ⌊rand 3 * 15⌋ + 2, ⌊rand 4 * 15⌋ + 2)
    | .hard => (⌊rand 2 * 20⌋ + 5, ⌊rand 3 * 20⌋ + 5, ⌊rand 4 * 20⌋ + 5)
  let (result, questionText) : ℤ × String :=
    if op1 = "×" ∨ op2 = "×" then
      if op1 = "×" then
        let temp := a * b
        (if op2 = "+" then temp + c else temp - c, s!"{a} × {b} {op2} {c} = ?")
      else
        let temp := b * c
        (if op1 = "+" then a + temp else a - temp, s!"{a} {op1} {b} × {c} = ?")
    else
      let temp := if op1 = "+" then a + b else a - b
      (if op2 = "+" then temp + c else temp - c, s!"{a} {op1} {b} {op2} {c} = ?")
  if result < 0 then
    createAdditionQuestion id difficulty timeLimit (fun n => rand (n + 5))
  else
    { id := id
      text := questionText
      answer := result
      difficulty := difficulty
      type := "mixed"
      timeLimit := timeLimit
      category := some "arithmetic" }

/-- `createFractionsQuestion`.  The sum of the two fractions is exact in `ℚ`;
the answer is the rounded decimal scaled by 100 as in the source. -/
def createFractionsQuestion (id : String) (difficulty : Difficulty) (timeLimit : ℤ)
    (rand : ℕ → ℚ) : Question :=
  let (num1, den1, num2, den2) : ℤ × ℤ × ℤ × ℤ :=
    match difficulty with
    | .easy =>
      let den := ⌊rand 0 * 8⌋ + 2
      let n1 := ⌊rand 1 * ((den : ℚ) - 1)⌋ + 1
      let n2 := ⌊rand 2 * ((den : ℚ) - (n1 : ℚ))⌋ + 1
      (n1, den, n2, den)
    | .medium =>
      let d1 := ([2, 3, 4, 5, 6] : List ℤ).getD (⌊rand 0 * 5⌋).toNat 2
      let d2 := ([2, 3, 4, 5, 6] : List ℤ).getD (⌊rand 1 * 5⌋).toNat 2
      (⌊rand 2 * (d1 : ℚ)⌋ + 1, d1, ⌊rand 3 * (d2 : ℚ)⌋ + 1, d2)
    | .hard =>
      let d1 := ⌊rand 0 * 10⌋ + 2
      let d2 := ⌊rand 1 * 10⌋ + 2
      (⌊rand 2 * (d1 : ℚ)⌋ + 1, d1, ⌊rand 3 * (d2 : ℚ)⌋ + 1, d2)
  let sum : ℚ := (num1 : ℚ) / (den1 : ℚ) + (num2 : ℚ) / (den2 : ℚ)
  let answerDecimal : ℚ := (jsRound (sum * 100) : ℚ) / 100
  let answer := jsRound (answerDecimal * 100)
  { id := id
    text := s!"{num1}/{den1} + {num2}/{den2} = ? (as decimal × 100)"
    answer := answer
    difficulty := difficulty
    type := "fractions"
    timeLimit := timeLimit
    category := some "fractions"
    explanation := some s!"{num1}/{den1} + {num2}/{den2} = {answerDecimal}" }

/-- `createDecimalsQuestion`. -/
def createDecimalsQuestion (id : String) (difficulty : Difficulty) (timeLimit : ℤ)
    (rand : ℕ → ℚ) : Question :=
  let (a, b) : ℚ × ℚ :=
    match difficulty with
    | .easy => ((jsRound ((rand 0 * 10 + 1) * 10) : ℚ) / 10,
        (jsRound ((rand 1 * 10 + 1) * 10) : ℚ) / 10)
    | .medium => ((jsRound ((rand 0 * 50 + 1) * 100) : ℚ) / 100,
        (jsRound ((rand 1 * 50 + 1) * 100) : ℚ) / 100)
    | .hard => ((jsRound ((rand 0 * 100 + 1) * 1000) : ℚ) / 1000,
        (jsRound ((rand 1 * 100 + 1) * 1000) : ℚ) / 1000)
  let result : ℚ := (jsRound ((a + b) * 1000) : ℚ) / 1000
  let answer := jsRound (result * 1000)
  { id := id
    text := s!"{a} + {b} = ? (×1000)"
    answer := answer
    difficulty := difficulty
    type := "decimals"
    timeLimit := timeLimit
    category := some "decimals"
    explanation := some s!"{a} + {b} = {result}" }

/-- `createPercentagesQuestion`. -/
def createPercentagesQuestion (id : String) (difficulty : Difficulty) (timeLimit : ℤ)
    (rand : ℕ → ℚ) : Question :=
  let (base, percentage) : ℤ × ℤ :=
    match difficulty with
    | .easy => (([10, 20, 25, 50, 100] : List ℤ).getD (⌊rand 0 * 5⌋).toNat 10,
        ([10, 20, 25, 50] : List ℤ).getD (⌊rand 1 * 4⌋).toNat 10)
    | .medium => (⌊rand 0 * 200⌋ + 50,
        ([15, 25, 30, 40, 60, 75] : List ℤ).getD (⌊rand 1 * 6⌋).toNat 15)
    | .hard => (⌊rand 0 * 1000⌋ + 100, ⌊rand 1 * 95⌋ + 5)
  let answer := jsRound ((base : ℚ) * (percentage : ℚ) / 100)
  { id := id
    text := s!"What is {percentage}% of {base}?"
    answer := answer
    difficulty := difficulty
    type := "percentages"
    timeLimit := timeLimit
    category := some "percentages"
    explanation := some s!"{percentage}% of {base} = {base} × {percentage}/100 = {answer}" }

/-- A fixed word problem: text, answer and explanation. -/
structure WordProblem where
  text : String
  answer : ℤ
  explanation : String
deriving DecidableEq, Repr

/-- The fixed word-problem tables of `createWordProblemQuestion`. -/
def wordProblems : Difficulty → List WordProblem
  | .easy =>
    [⟨"Sarah has 15 apples. She gives away 6 apples. How many apples does she have left?",
        9, "15 - 6 = 9"⟩,
      ⟨"A box contains 8 red balls and 12 blue balls. How many balls are there in total?",
        20, "8 + 12 = 20"⟩,
      ⟨"Tom buys 4 packs of pencils. Each pack has 5 pencils. How many pencils does Tom have?",
        20, "4 × 5 = 20"⟩]
  | .medium =>
    [⟨"A store sells 45 books on Monday and 38 books on Tuesday. If each book costs $12, how many books were sold in total?",
        83, "45 + 38 = 83 books"⟩,
      ⟨"Lisa has $150. She spends $45 on food and $25 on clothes. How much money does she have left?",
        80, "150 - 45 - 25 = 80"⟩,
      ⟨"A recipe calls for 3/4 cup of sugar. If you want to make 4 batches, how many cups of sugar do you need? (Answer as decimal × 10)",
        30, "3/4 × 4 = 3 cups = 30 (×10)"⟩]
  | .hard =>
    [⟨"A train travels 420 miles in 6 hours. At this rate, how many miles will it travel in 9 hours?",
        630, "420 ÷ 6 = 70 mph, 70 × 9 = 630 miles"⟩,
      ⟨"The price of a jacket increased by 25% from $80. What is the new price?",
        100, "80 × 1.25 = $100"⟩,
      ⟨"A rectangular garden is 15 meters long and 8 meters wide. What is its area in square meters?",
        120, "15 × 8 = 120 square meters"⟩]

/-- `createWordProblemQuestion`: uniform choice from a fixed per-difficulty
table. -/
def createWordProblemQuestion (id : String) (difficulty : Difficulty) (timeLimit : ℤ)
    (rand : ℕ → ℚ) : Question :=
  let problemSet := wordProblems difficulty
  let selected := problemSet.getD (⌊rand 0 * (problemSet.length : ℚ)⌋).toNat
    ⟨"", 0, ""⟩
  { id := id
    text := selected.text
    answer := selected.answer
    difficulty := difficulty
    type := "word_problem"
    timeLimit := timeLimit
    category := some "word_problems"
    explanation := some selected.explanation }

/-- `createAlgebraQuestion`.  The hard branch's displayed constant is a fresh
draw (`rand 3`), exactly as in the source template string. -/
def createAlgebraQuestion (id : String) (difficulty : Difficulty) (timeLimit : ℤ)
    (rand : ℕ → ℚ) : Question :=
  let (a, b, x) : ℤ × ℤ × ℤ :=
    match difficulty with
    | .easy =>
      let x := ⌊rand 0 * 10⌋ + 1
      let a := ⌊rand 1 * 5⌋ + 1
      (a, a * x, x)
    | .medium =>
      let a := ⌊rand 1 * 10⌋ + 1
      let b := ⌊rand 2 * 20⌋ + 1
      (a, b, ⌊(b : ℚ) / (a : ℚ)⌋)
    | .hard =>
      let x := ⌊rand 0 * 20⌋ + 1
      let a := ⌊rand 1 * 15⌋ + 2
      let c := ⌊rand 2 * 10⌋ + 1
      let b := a * x + c
      (a, b, ⌊((b : ℚ) - (c : ℚ)) / (a : ℚ)⌋)
  { id := id
    text := if difficulty = .hard
      then s!"Solve for x: {a}x + {⌊rand 3 * 10⌋ + 1} = {b}"
      else s!"Solve for x: {a}x = {b}"
    answer := x
    difficulty := difficulty
    type := "algebra"
    timeLimit := timeLimit
    category := some "algebra"
    explanation := some s!"x = {x}" }

/-- `createGeometryQuestion`: shape selected by `rand 0`, shape parameters by
`rand 1`, `rand 2`.  The circle/cylinder formulas use the exact rational value
of the double `Math.PI`. -/
def createGeometryQuestion (id : String) (difficulty : Difficulty) (timeLimit : ℤ)
    (rand : ℕ → ℚ) : Question :=
  let (text, answer, explanation) : String × ℤ × String :=
    match difficulty with
    | .easy =>
      if (⌊rand 0 * 2⌋).toNat = 0 then
        let length := ⌊rand 1 * 10⌋ + 3
        let width := ⌊rand 2 * 8⌋ + 2
        (s!"Find the area of a rectangle with length {length} and width {width}.",
          length * width,
          s!"Area = length × width = {length} × {width} = {length * width}")
      else
        let side := ⌊rand 1 * 8⌋ + 3
        (s!"Find the perimeter of a square with side length {side}.",
          side * 4,
          s!"Perimeter = 4 × side = 4 × {side} = {side * 4}")
    | .medium =>
      if (⌊rand 0 * 2⌋).toNat = 0 then
        let base := ⌊rand 1 * 12⌋ + 4
        let height := ⌊rand 2 * 10⌋ + 3
        let area := ⌊((base : ℚ) * (height : ℚ)) / 2⌋
        (s!"Find the area of a triangle with base {base} and height {height}.",
          area,
          s!"Area = (base × height) ÷ 2 = ({base} × {height}) ÷ 2 = {area}")
      else
        let radius := ⌊rand 1 * 8⌋ + 2
        let circumference : ℚ := (jsRound (2 * jsPi * (radius : ℚ) * 10) : ℚ) / 10
        (s!"Find the circumference of a circle with radius {radius}. (Use π ≈ 3.14, round to nearest whole number)",
          jsRound circumference,
          s!"Circumference = 2πr = 2 × 3.14 × {radius} = {circumference}")
    | .hard =>
      let radius := ⌊rand 1 * 6⌋ + 2
      let height := ⌊rand 2 * 10⌋ + 3
      let volume := jsRound (jsPi * (radius : ℚ) * (radius : ℚ) * (height : ℚ))
      (s!"Find the volume of a cylinder with radius {radius} and height {height}. (Use π ≈ 3.14)",
        volume,
        s!"Volume = πr²h = 3.14 × {radius}² × {height} = {volume}")
  { id := id
    text := text
    answer := answer
    difficulty := difficulty
    type := "geometry"
    timeLimit := timeLimit
    category := some "geometry"
    explanation := some explanation }

/-- `QuestionGenerator.createQuestion`: dispatch on the question-type string,
defaulting to an addition question. -/
def createQuestion (id : String) (type : String) (difficulty : Difficulty) (timeLimit : ℤ)
    (rand : ℕ → ℚ) : Question :=
  match type with
  | "addition" => createAdditionQuestion id difficulty timeLimit rand
  | "subtraction" => createSubtractionQuestion id difficulty timeLimit rand
  | "multiplication" => createMultiplicationQuestion id difficulty timeLimit rand
  | "division" => createDivisionQuestion id difficulty timeLimit rand
  | "mixed" => createMixedQuestion id difficulty timeLimit rand
  | "fractions" => createFractionsQuestion id difficulty timeLimit rand
  | "decimals" => createDecimalsQuestion id difficulty timeLimit rand
  | "percentages" => createPercentagesQuestion id difficulty timeLimit rand
  | "word_problem" => createWordProblemQuestion id difficulty timeLimit rand
  | "algebra" => createAlgebraQuestion id difficulty timeLimit rand
  | "geometry" => createGeometryQuestion id difficulty timeLimit rand
  | _ => createAdditionQuestion id difficulty timeLimit rand

/-- `QuestionGenerator.generateQuestion`: the question counter and timestamp
(used only for the id string) are passed explicitly; `rand 0` chooses the
question type and the remaining draws are handed to the creator. -/
def generateQuestion (difficulty : Difficulty) (wave : ℤ) (count : ℕ) (now : ℤ)
    (rand : ℕ → ℚ) : Question :=
  let id := s!"q_{count + 1}_{now}"
  let timeLimit : ℤ :=
    match difficulty with
    | .easy => 30000
    | .medium => 20000
    | .hard => 15000
  let effectiveDifficulty := adjustDifficultyForWave difficulty wave
  let questionTypes := getQuestionTypes effectiveDifficulty
  let type := questionTypes.getD (⌊rand 0 * (questionTypes.length : ℚ)⌋).toNat "addition"
  createQuestion id type effectiveDifficulty timeLimit (fun n => rand (n + 1))

/-! ## Game utilities (`gameUtils.ts`) -/

/-- Canvas width constant. -/
def CANVAS_WIDTH : ℚ := 800

/-- Canvas height constant. -/
def CANVAS_HEIGHT : ℚ := 600

/-- Player collision radius constant. -/
def PLAYER_RADIUS : ℚ := 30

/-- The monster type union `"basic" | "fast" | "tank" | "boss"`. -/
inductive MonsterType where
  | basic
  | fast
  | tank
  | boss
deriving DecidableEq, Repr

/-- `generateMonsterSpawnPoint`: a point on one of the four screen edges,
offset outward by the fixed 250-pixel margin.  `sideR` and `coordR` are the two
`Math.random()` draws. -/
def generateMonsterSpawnPoint (sideR coordR : ℚ) : Point :=
  let side := ⌊sideR * 4⌋
  let margin : ℚ := 250
  if side = 0 then ⟨coordR * CANVAS_WIDTH, -margin⟩
  else if side = 1 then ⟨CANVAS_WIDTH + margin, coordR * CANVAS_HEIGHT⟩
  else if side = 2 then ⟨coordR * CANVAS_WIDTH, CANVAS_HEIGHT + margin⟩
  else ⟨-margin, coordR * CANVAS_HEIGHT⟩

/-- The wave-dependent pool of eligible monster types, built in the source's
push order: `basic` always, `fast` from wave 3, `tank` from wave 5, `boss` on
multiples of 10. -/
def monsterTypePool (wave : ℤ) : List MonsterType :=
  [.basic] ++ (if 3 ≤ wave then [.fast] else []) ++ (if 5 ≤ wave then [.tank] else [])
    ++ (if wave % 10 = 0 then [.boss] else [])

/-- The `Monster` record of the game-state store (`useGameState`), as produced
by `createMonster` and mutated by the monster entity.  Optional fields
(`spawnX`, `spawnY`, `equation`, `answer`, `isDestroying`,
`destructionStartTime`) start unset. -/
structure MonsterData where
  id : String
  x : ℚ
  y : ℚ
  health : ℤ
  maxHealth : ℤ
  speed : ℚ
  targetX : ℚ
  targetY : ℚ
  type : MonsterType
  color : String
  size : ℚ
  spawnX : Option ℚ := none
  spawnY : Option ℚ := none
  equation : Option String := none
  answer : Option ℤ := none
  isDestroying : Bool := false
  destructionStartTime : Option ℤ := none
deriving DecidableEq, Repr

/-- `createMonster(wave, difficulty)`.  The four `Math.random()` draws are
`sideR`/`coordR` (spawn point), `typeR` (type choice) and `idR` (id suffix);
`now` is `Date.now()`.  The source computes
`spawnDistance = Math.sqrt((sx-cx)² + (sy-cy)²)`, which is irrational in
general, so the embedding takes `spawnDistance` as an explicit argument;
theorems that depend on its value constrain it to the true distance. -/
def createMonster (wave : ℤ) (difficulty : Difficulty) (sideR coordR typeR idR : ℚ)
    (now : ℤ) (spawnDistance : ℚ) : MonsterData :=
  let spawnPoint := generateMonsterSpawnPoint sideR coordR
  let playerCenter : Point := ⟨CANVAS_WIDTH / 2, CANVAS_HEIGHT / 2⟩
  let types := monsterTypePool wave
  let type := types.getD (⌊typeR * (types.length : ℚ)⌋).toNat .basic
  let exactSpeed : ℚ := spawnDistance / 5000
  let (health0, speed, size, color) : ℤ × ℚ × ℚ × String :=
    match type with
    | .fast => (1, exactSpeed, 20, "#10b981")
    | .tank => (5, exactSpeed * (9 / 10), 40, "#dc2626")
    | .boss => (15, exactSpeed * (8 / 10), 60, "#7c3aed")
    | .basic => (2, exactSpeed, 25, "#f97316")
  let healthMultiplier : ℚ :=
    match difficulty with
    | .easy => 8 / 10
    | .medium => 1
    | .hard => 12 / 10
  let health := ⌈(health0 : ℚ) * healthMultiplier⌉
  { id := s!"monster_{now}_{idR}"
    x := spawnPoint.x
    y := spawnPoint.y
    health := health
    maxHealth := health
    speed := speed
    targetX := playerCenter.x
    targetY := playerCenter.y
    type := type
    color := color
    size := size }

/-- `getMonsterDamage`: type-specific damage dealt on reaching the player. -/
def getMonsterDamage : MonsterType → ℤ
  | .fast => 1
  | .tank => 2
  | .boss => 3
  | .basic => 1

/-- `getComboMultiplier` from `gameUtils.ts` (`1 + floor(combo / 5) * 0.5`).
Exported by the utilities module but not used by the live scoring path, which
is `answerQuestion` in the game-state store. -/
def getComboMultiplier (combo : ℤ) : ℚ :=
  1 + (⌊(combo : ℚ) / 5⌋ : ℚ) * (1 / 2)

/-! ## Monster entity (`Monster.ts`) -/

/-- The engine-side monster: the store record plus the entity's private
`spawnTime` captured at construction. -/
structure EngineMonster where
  data : MonsterData
  spawnTime : ℤ
deriving DecidableEq, Repr

/-- JavaScript falsiness of an optional number: `undefined` and `0` are
falsy. -/
def jsFalsyOpt : Option ℚ → Bool
  | none => true
  | some v => v == 0

/-- `Monster.update(deltaTime, playerPosition)`: retargets to the player, then
places the monster by time-based linear interpolation from the spawn point,
`progress = min(elapsedSinceSpawn / 5000, 1)`.  `deltaTime` is accepted but,
as in the source, unused for movement; `now` is `Date.now()`. -/
def monsterUpdate (m : EngineMonster) (_deltaTime : ℚ) (playerPosition : Point)
    (now : ℤ) : EngineMonster :=
  let d0 := { m.data with targetX := playerPosition.x, targetY := playerPosition.y }
  let elapsedTime : ℤ := now - m.spawnTime
  let totalTravelTime : ℚ := 5000
  let progress : ℚ := min ((elapsedTime : ℚ) / totalTravelTime) 1
  let reset := jsFalsyOpt d0.spawnX || jsFalsyOpt d0.spawnY
  let sx : ℚ := if reset then d0.x else d0.spawnX.getD 0
  let sy : ℚ := if reset then d0.y else d0.spawnY.getD 0
  { m with
      data := { d0 with
        spawnX := some sx
        spawnY := some sy
        x := sx + (d0.targetX - sx) * progress
        y := sy + (d0.targetY - sy) * progress } }

/-- `Monster.isAttacking(playerPosition, playerRadius)`: Euclidean distance to
the player at most `size + playerRadius`.  The source compares
`Math.sqrt(dx² + dy²) ≤ size + playerRadius`; since both sides are
non-negative for every reachable monster (sizes are 20–60 and the radius 30),
this is embedded as the equivalent squared comparison. -/
def monsterIsAttacking (m : EngineMonster) (playerPosition : Point)
    (playerRadius : ℚ) : Bool :=
  (m.data.x - playerPosition.x) ^ 2 + (m.data.y - playerPosition.y) ^ 2
    ≤ (m.data.size + playerRadius) ^ 2

/-- `Monster.takeDamage(amount)`: clamp health at 0 and report destruction. -/
def monsterTakeDamage (m : EngineMonster) (amount : ℤ) : EngineMonster × Bool :=
  let health := max 0 (m.data.health - amount)
  ({ m with data := { m.data with health := health } }, health ≤ 0)

/-! ## Simulation engine (`GameEngine`)

The engine's per-tick `update` iterates `this.state.monsters.forEach(...)`;
a monster that reaches the player is removed *during* the iteration by
`destroyMonster(id, false)` (a splice at the current index).  Under JavaScript
`forEach` semantics, splicing out the element at the current index shifts the
remaining elements left, so the element that followed the removed one is
skipped for the rest of this tick.  `engineTick` models exactly that: when the
visited monster collides, the next list element is carried over unvisited.
Monster ids are assumed unique (they embed a timestamp and a random suffix),
so the splice always removes the visited monster itself. -/

/-- Observable callback events of one engine tick, in firing order. -/
inductive EngineEvent where
  /-- A (non-destroying) monster's position update completed. -/
  | posUpdate (id : String)
  /-- `onMonsterReachPlayer(damage)` fired because of this monster. -/
  | reachedPlayer (id : String) (damage : ℤ)
  /-- `onMonsterDestroyed(id)` fired. -/
  | monsterDestroyed (id : String)
deriving DecidableEq, Repr

/-- One engine tick over the monster list (`GameEngine.update`): updates every
non-destroying monster in order, fires `onMonsterReachPlayer` and destroys the
monster (without animation) as soon as it collides, and returns the event
trace together with the surviving list.  See the section comment for the
`forEach`-splice skip modeled by the collision branch. -/
def engineTick (monsters : List EngineMonster) (playerPosition : Point) (now : ℤ)
    (deltaTime : ℚ) : List EngineEvent × List EngineMonster :=
  match monsters with
  | [] => ([], [])
  | m :: rest =>
    if m.data.isDestroying then
      ((engineTick rest playerPosition now deltaTime).1,
        m :: (engineTick rest playerPosition now deltaTime).2)
    else
      let m' := monsterUpdate m deltaTime playerPosition now
      if monsterIsAttacking m' playerPosition PLAYER_RADIUS then
        match rest with
        | [] => ([.posUpdate m'.data.id,
            .reachedPlayer m'.data.id (getMonsterDamage m'.data.type),
            .monsterDestroyed m'.data.id], [])
        | skipped :: rest' =>
          (.posUpdate m'.data.id ::
            .reachedPlayer m'.data.id (getMonsterDamage m'.data.type) ::
            .monsterDestroyed m'.data.id ::
            (engineTick rest' playerPosition now deltaTime).1,
            skipped :: (engineTick rest' playerPosition now deltaTime).2)
      else
        (.posUpdate m'.data.id :: (engineTick rest playerPosition now deltaTime).1,
          m' :: (engineTick rest playerPosition now deltaTime).2)

/-- The engine state (`GameEngineState`). -/
structure EngineState where
  playerPosition : Point
  monsters : List EngineMonster
  lastSpawnTime : ℤ
  lastUpdateTime : ℤ
  isRunning : Bool
deriving DecidableEq, Repr

/-- One iteration of `GameEngine.gameLoop` at wall-clock time `now`: a paused
engine returns immediately; a running one clamps `deltaTime` to 16.67 ms and
runs `update`. -/
def engineStep (s : EngineState) (now : ℤ) : EngineState :=
  if s.isRunning then
    let deltaTime : ℚ := min ((now - s.lastUpdateTime : ℤ) : ℚ) (1667 / 100)
    { s with
        lastUpdateTime := now
        monsters := (engineTick s.monsters s.playerPosition now deltaTime).2 }
  else s

/-- The event trace of one `gameLoop` iteration (empty when paused). -/
def engineStepTrace (s : EngineState) (now : ℤ) : List EngineEvent :=
  if s.isRunning then
    let deltaTime : ℚ := min ((now - s.lastUpdateTime : ℤ) : ℚ) (1667 / 100)
    (engineTick s.monsters s.playerPosition now deltaTime).1
  else []

/-- `GameEngine.start()`. -/
def engineStart (s : EngineState) (now : ℤ) : EngineState :=
  { s with isRunning := true, lastUpdateTime := now }

/-- `GameEngine.pause()`: stops the loop (cancels the scheduled frame) but
touches nothing else. -/
def enginePause (s : EngineState) : EngineState :=
  { s with isRunning := false }

/-- `GameEngine.stop()`: stops the loop and clears the monster list. -/
def engineStop (s : EngineState) : EngineState :=
  { s with isRunning := false, monsters := [] }

/-- The outcome of a `destroyMonster` call: the resulting list, the removals
scheduled via `setTimeout` (id and due time), and the `onMonsterDestroyed`
callbacks fired synchronously by the call itself. -/
structure DestroyOutcome where
  monsters : List EngineMonster
  scheduledRemovals : List (String × ℤ)
  destroyedEvents : List String
deriving DecidableEq, Repr

/-- `GameEngine.destroyMonster(monsterId, withAnimation)` acting on the
monster list.  The monster is looked up by id (first match, as `findIndex`);
an unknown id changes nothing.  The animated branch is taken only when
`withAnimation` holds *and* the monster is not already being destroyed: it
marks the monster and schedules removal after 800 ms.  Every other found case
— including an already-destroying monster — is spliced out immediately and
fires `onMonsterDestroyed` synchronously. -/
def destroyMonster (monsters : List EngineMonster) (monsterId : String)
    (withAnimation : Bool) (now : ℤ) : DestroyOutcome :=
  match monsters with
  | [] => ⟨[], [], []⟩
  | m :: rest =>
    if m.data.id = monsterId then
      if withAnimation && !m.data.isDestroying then
        ⟨{ m with data := { m.data with
            isDestroying := true, destructionStartTime := some now } } :: rest,
          [(monsterId, now + 800)], []⟩
      else
        ⟨rest, [], [monsterId]⟩
    else
      let o := destroyMonster rest monsterId withAnimation now
      ⟨m :: o.monsters, o.scheduledRemovals, o.destroyedEvents⟩

/-- `GameEngine.spawnMonster(wave, difficulty, equation?, answer?)`: appends a
newly created monster (tagged with the optional equation/answer) to the list.
The creation randoms, timestamp and spawn distance are threaded through as in
`createMonster`. -/
def spawnMonster (s : EngineState) (wave : ℤ) (difficulty : Difficulty)
    (equation : Option String) (answer : Option ℤ)
    (sideR coordR typeR idR : ℚ) (now : ℤ) (spawnDistance : ℚ) : EngineState :=
  let monsterData := createMonster wave difficulty sideR coordR typeR idR now spawnDistance
  let monsterData :=
    match equation, answer with
    | some eq, some ans => { monsterData with equation := some eq, answer := some ans }
    | _, _ => monsterData
  { s with monsters := s.monsters ++ [⟨monsterData, now⟩] }

/-- `GameEngine.spawnNextMonster`: spawns only when fewer than 3 monsters are
live and at least 2000 ms have passed since `lastSpawnTime`, updating
`lastSpawnTime` on a successful spawn. -/
def spawnNextMonster (s : EngineState) (wave : ℤ) (difficulty : Difficulty)
    (equation : Option String) (answer : Option ℤ)
    (sideR coordR typeR idR : ℚ) (now : ℤ) (spawnDistance : ℚ) : EngineState :=
  if s.monsters.length < 3 then
    let timeSinceLastSpawn := now - s.lastSpawnTime
    if 2000 ≤ timeSinceLastSpawn then
      { spawnMonster s wave difficulty equation answer sideR coordR typeR idR now
          spawnDistance with lastSpawnTime := now }
    else s
  else s

/-! ## Game progression store (`useGameState`) -/

/-- The game phase union of the store. -/
inductive Phase where
  | menu
  | playing
  | paused
  | gameOver
  | tutorial
deriving DecidableEq, Repr

/-- The slice of the store's state touched by the progression operations. -/
structure GameProgress where
  phase : Phase
  score : ℤ
  health : ℤ
  maxHealth : ℤ
  wave : ℤ
  combo : ℕ
  maxCombo : ℕ
  currentQuestion : Option Question
  questionsAnswered : ℕ
  correctAnswers : ℕ
  wrongAnswers : ℕ
deriving DecidableEq, Repr

/-- The per-difficulty base points of `answerQuestion`
(easy 10, medium 20, hard 30). -/
def basePoints : Difficulty → ℤ
  | .easy => 10
  | .medium => 20
  | .hard => 30

/-- The combo multiplier computed by `answerQuestion`:
`Math.floor(newCombo / 5) + 1`. -/
def comboMultiplier (combo : ℕ) : ℕ := combo / 5 + 1

/-- `useGameState`'s `answerQuestion(answer)`: compares against the current
question's answer; on a match increments the combo and awards
`basePoints × comboMultiplier(newCombo)`, on a mismatch resets the combo;
returns whether the answer was correct.  With no current question it is a
no-op returning `false`. -/
def answerQuestion (s : GameProgress) (answer : ℤ) : GameProgress × Bool :=
  match s.currentQuestion with
  | none => (s, false)
  | some currentQuestion =>
    let isCorrect := answer = currentQuestion.answer
    let newCombo := if isCorrect then s.combo + 1 else 0
    let multiplier := comboMultiplier newCombo
    let points : ℤ := if isCorrect then basePoints currentQuestion.difficulty * multiplier else 0
    ({ s with
        questionsAnswered := s.questionsAnswered + 1
        correctAnswers := if isCorrect then s.correctAnswers + 1 else s.correctAnswers
        wrongAnswers := if isCorrect then s.wrongAnswers else s.wrongAnswers + 1
        combo := newCombo
        maxCombo := max s.maxCombo newCombo
        score := s.score + points },
      isCorrect)

/-! ## Trace predicates and concrete sample data for the claims -/

/-- Whether an engine event is a position update. -/
def isPosUpdate : EngineEvent → Bool
  | .posUpdate _ => true
  | _ => false

/-- The ordering property claimed for one tick: every position update of the
tick completes before any reached-player callback fires, i.e. no position
update occurs after a reached-player event in the trace. -/
def updatesPrecedeCallbacks : List EngineEvent → Bool
  | [] => true
  | .posUpdate _ :: rest => updatesPrecedeCallbacks rest
  | .reachedPlayer _ _ :: rest => !rest.any isPosUpdate
  | .monsterDestroyed _ :: rest => updatesPrecedeCallbacks rest

/-- Checker for the actual per-tick ordering: every reached-player callback is
immediately preceded by the position update of the same monster.
`lastUpdate` carries the id of the immediately preceding position update, if
any. -/
def reachedAfterOwnUpdate (lastUpdate : Option String) : List EngineEvent → Bool
  | [] => true
  | .posUpdate i :: rest => reachedAfterOwnUpdate (some i) rest
  | .reachedPlayer j _ :: rest => (lastUpdate == some j) && reachedAfterOwnUpdate none rest
  | .monsterDestroyed _ :: rest => reachedAfterOwnUpdate none rest

/-- The monster ids of the reached-player callbacks of a trace, in firing
order. -/
def reachedIds : List EngineEvent → List String
  | [] => []
  | .posUpdate _ :: rest => reachedIds rest
  | .reachedPlayer j _ :: rest => j :: reachedIds rest
  | .monsterDestroyed _ :: rest => reachedIds rest

/-- A basic monster with the given id, position, size, destroying flag and
spawn time; remaining fields as produced by `createMonster` for a basic
monster. Used to build concrete engine scenarios. -/
def mkMonster (id : String) (x y size : ℚ) (destroying : Bool)
    (spawnTime : ℤ) : EngineMonster :=
  ⟨{ id := id, x := x, y := y, health := 2, maxHealth := 2, speed := x / 5000,
      targetX := 400, targetY := 300, type := .basic, color := "#f97316",
      size := size, isDestroying := destroying }, spawnTime⟩

/-- Random draws driving `createMixedQuestion` into the double-`×` branch with
operands 2, 2, 3: draws 0 and 1 choose `×` twice, draws 2–4 give the
operands. -/
def mixedBugRand : ℕ → ℚ := fun n =>
  match n with
  | 0 => 5 / 6
  | 1 => 5 / 6
  | 2 => 3 / 20
  | 3 => 3 / 20
  | 4 => 1 / 4
  | _ => 0

/-! ## Claim theorems -/

/-- Claim C1: the wave adjustment resolves the effective difficulty as a step
function of the wave number: waves ≤ 3 force easy; waves 4–6 keep easy and cap
everything else at medium; waves 7–10 push easy to medium and everything else
to hard; waves ≥ 11 force hard independently of the base difficulty. -/
theorem adjustDifficultyForWave_step (d : Difficulty) (w : ℤ) :
    (w ≤ 3 → adjustDifficultyForWave d w = .easy) ∧
    (4 ≤ w → w ≤ 6 →
      adjustDifficultyForWave d w = (if d = .easy then .easy else .medium)) ∧
    (7 ≤ w → w ≤ 10 →
      adjustDifficultyForWave d w = (if d = .easy then .medium else .hard)) ∧
    (11 ≤ w → adjustDifficultyForWave d w = .hard) := by
  unfold adjustDifficultyForWave
  refine ⟨fun h => ?_, fun h1 h2 => ?_, fun h1 h2 => ?_, fun h => ?_⟩ <;>
    split_ifs <;> first | rfl | omega

/-- Witness for C1 at a concrete input: a medium base difficulty at wave 5
resolves to medium. -/
theorem adjustDifficultyForWave_step_witness :
    adjustDifficultyForWave .medium 5 = .medium := by
  have h := (adjustDifficultyForWave_step .medium 5).2.1 (by decide) (by decide)
  simpa using h

/-- Claim C4: a correct answer increments the combo and is scored with the
multiplier `floor(newCombo / 5) + 1` — which is 1 for combo 0–4 and 2 for
combo 5–9 — applied to the base points easy = 10, medium = 20, hard = 30. -/
theorem answerQuestion_combo_scoring (s : GameProgress) (q : Question) (ans : ℤ)
    (hq : s.currentQuestion = some q) (ha : ans = q.answer) :
    ((answerQuestion s ans).1.combo = s.combo + 1) ∧
    ((answerQuestion s ans).1.score
      = s.score + basePoints q.difficulty * comboMultiplier (s.combo + 1)) ∧
    (∀ c : ℕ, comboMultiplier c = c / 5 + 1) ∧
    (∀ c : ℕ, c ≤ 4 → comboMultiplier c = 1) ∧
    (∀ c : ℕ, 5 ≤ c → c ≤ 9 → comboMultiplier c = 2) ∧
    basePoints .easy = 10 ∧ basePoints .medium = 20 ∧ basePoints .hard = 30 := by
  refine ⟨?_, ?_, fun c => rfl, fun c hc => ?_, fun c h5 h9 => ?_, rfl, rfl, rfl⟩
  · simp [answerQuestion, hq, ha]
  · simp [answerQuestion, hq, ha]
  · simp only [comboMultiplier]; omega
  · simp only [comboMultiplier]; omega

/-- Witness for C4 at a concrete input: from combo 4, a correct easy answer
moves the combo to 5 and awards 10 × 2 = 20 points. -/
theorem answerQuestion_combo_scoring_witness :
    (answerQuestion
      { phase := .playing, score := 100, health := 5, maxHealth := 5, wave := 1,
        combo := 4, maxCombo := 4,
        currentQuestion := some
          { id := "q", text := "3 + 4 = ?", answer := 7, difficulty := .easy,
            type := "addition", timeLimit := 30000 },
        questionsAnswered := 0, correctAnswers := 0, wrongAnswers := 0 } 7).1.combo = 5 ∧
    (answerQuestion
      { phase := .playing, score := 100, health := 5, maxHealth := 5, wave := 1,
        combo := 4, maxCombo := 4,
        currentQuestion := some
          { id := "q", text := "3 + 4 = ?", answer := 7, difficulty := .easy,
            type := "addition", timeLimit := 30000 },
        questionsAnswered := 0, correctAnswers := 0, wrongAnswers := 0 } 7).1.score = 120 := by
  have h := answerQuestion_combo_scoring
    { phase := .playing, score := 100, health := 5, maxHealth := 5, wave := 1,
      combo := 4, maxCombo := 4,
      currentQuestion := some
        { id := "q", text := "3 + 4 = ?", answer := 7, difficulty := .easy,
          type := "addition", timeLimit := 30000 },
      questionsAnswered := 0, correctAnswers := 0, wrongAnswers := 0 }
    { id := "q", text := "3 + 4 = ?", answer := 7, difficulty := .easy,
      type := "addition", timeLimit := 30000 } 7 rfl rfl
  refine ⟨by simpa using h.1, ?_⟩
  have hs := h.2.1
  simpa using hs

/-- Claim C5: every generated division question displays
`(divisor × quotient) ÷ divisor`, stores the quotient as its answer, and hence
the displayed dividend is exactly divisible by the displayed divisor with
quotient equal to the stored answer. -/
theorem createDivisionQuestion_exact (id : String) (d : Difficulty) (tl : ℤ)
    (rand : ℕ → ℚ) (h0 : 0 ≤ rand 0) (h1 : 0 ≤ rand 1) :
    ∃ divisor quotient : ℤ, 2 ≤ divisor ∧ 1 ≤ quotient ∧
      (createDivisionQuestion id d tl rand).text = s!"{divisor * quotient} ÷ {divisor} = ?" ∧
      (createDivisionQuestion id d tl rand).answer = quotient ∧
      divisor * quotient % divisor = 0 ∧
      divisor * quotient / divisor = quotient := by
  have base : ∀ q : ℚ, 0 ≤ q → ∀ k : ℚ, 0 ≤ k → (0 : ℤ) ≤ ⌊q * k⌋ := by
    intro q hq k hk
    exact Int.floor_nonneg.mpr (mul_nonneg hq hk)
  cases d
  case easy =>
    refine ⟨⌊rand 0 * 5⌋ + 2, ⌊rand 1 * 10⌋ + 1, by have := base _ h0 5 (by norm_num); omega,
      by have := base _ h1 10 (by norm_num); omega, rfl, rfl, Int.mul_emod_right _ _, ?_⟩
    exact Int.mul_ediv_cancel_left _ (by have := base _ h0 5 (by norm_num); omega)
  case medium =>
    refine ⟨⌊rand 0 * 8⌋ + 2, ⌊rand 1 * 15⌋ + 2, by have := base _ h0 8 (by norm_num); omega,
      by have := base _ h1 15 (by norm_num); omega, rfl, rfl, Int.mul_emod_right _ _, ?_⟩
    exact Int.mul_ediv_cancel_left _ (by have := base _ h0 8 (by norm_num); omega)
  case hard =>
    refine ⟨⌊rand 0 * 10⌋ + 3, ⌊rand 1 * 20⌋ + 5, by have := base _ h0 10 (by norm_num); omega,
      by have := base _ h1 20 (by norm_num); omega, rfl, rfl, Int.mul_emod_right _ _, ?_⟩
    exact Int.mul_ediv_cancel_left _ (by have := base _ h0 10 (by norm_num); omega)

/-- Witness for C5 at a concrete input: with both draws 0 at easy difficulty
the question is `2 ÷ 2 = ?` with answer 1 and exact division. -/
theorem createDivisionQuestion_exact_witness :
    ∃ divisor quotient : ℤ, 2 ≤ divisor ∧ 1 ≤ quotient ∧
      (createDivisionQuestion "q" .easy 30000 (fun _ => 0)).text
        = s!"{divisor * quotient} ÷ {divisor} = ?" ∧
      (createDivisionQuestion "q" .easy 30000 (fun _ => 0)).answer = quotient ∧
      divisor * quotient % divisor = 0 ∧
      divisor * quotient / divisor = quotient :=
  createDivisionQuestion_exact "q" .easy 30000 (fun _ => 0) le_rfl le_rfl

/-- Claim C10: `spawnNextMonster` spawns only when fewer than 3 monsters are
live — so a list of at most 3 stays at most 3 — and only when at least
2000 ms have elapsed since `lastSpawnTime`; a successful spawn stamps
`lastSpawnTime` with the spawn time, so two spawns through this entry point
are at least 2000 ms apart. -/
theorem spawnNextMonster_invariants (s : EngineState) (wave : ℤ) (d : Difficulty)
    (equation : Option String) (answer : Option ℤ) (sideR coordR typeR idR : ℚ)
    (now : ℤ) (dist : ℚ) :
    (s.monsters.length ≤ 3 →
      (spawnNextMonster s wave d equation answer sideR coordR typeR idR now
        dist).monsters.length ≤ 3) ∧
    (((spawnNextMonster s wave d equation answer sideR coordR typeR idR now
          dist).monsters.length = s.monsters.length + 1 ∧
        (spawnNextMonster s wave d equation answer sideR coordR typeR idR now
          dist).lastSpawnTime = now ∧
        s.monsters.length < 3 ∧ 2000 ≤ now - s.lastSpawnTime) ∨
      spawnNextMonster s wave d equation answer sideR coordR typeR idR now dist = s) := by
  by_cases h1 : s.monsters.length < 3
  · by_cases h2 : 2000 ≤ now - s.lastSpawnTime
    · refine ⟨fun _ => ?_, Or.inl ⟨?_, ?_, h1, h2⟩⟩ <;>
        · simp [spawnNextMonster, spawnMonster, h1, h2]
          try omega
    · have hs : spawnNextMonster s wave d equation answer sideR coordR typeR idR now
          dist = s := by simp [spawnNextMonster, h1, h2]
      rw [hs]
      exact ⟨fun h => h, Or.inr rfl⟩
  · have hs : spawnNextMonster s wave d equation answer sideR coordR typeR idR now
        dist = s := by simp [spawnNextMonster, h1]
    rw [hs]
    exact ⟨fun h => h, Or.inr rfl⟩

/-- Witness for C10 at a concrete input: spawning into an empty engine 2500 ms
after the last spawn leaves at most 3 live monsters. -/
theorem spawnNextMonster_invariants_witness :
    (spawnNextMonster ⟨⟨400, 300⟩, [], 0, 0, true⟩ 1 .easy none none 0 0 0 0 2500
      550).monsters.length ≤ 3 :=
  (spawnNextMonster_invariants ⟨⟨400, 300⟩, [], 0, 0, true⟩ 1 .easy none none 0 0 0 0
    2500 550).1 (by decide)

/-- Counterexample to claim C2 as stated: at resolved difficulty easy the
client generator can also produce a multiplication question — with the type
draw 9/10, `generateQuestion(easy, 1)` yields type `"multiplication"`, which
is neither addition nor subtraction. -/
theorem generateQuestion_easy_multiplication_cx :
    (generateQuestion .easy 1 0 0 (fun _ => 9 / 10)).type = "multiplication" ∧
    ("multiplication" : String) ≠ "addition" ∧
    ("multiplication" : String) ≠ "subtraction" := by
  refine ⟨?_, by decide, by decide⟩
  norm_num [generateQuestion, adjustDifficultyForWave, getQuestionTypes, createQuestion,
    createMultiplicationQuestion, List.getD]
  decide

/-- Claim C2 as amended: every question generated at resolved difficulty easy
has operation type addition, subtraction or multiplication — the easy menu of
`getQuestionTypes` — and no other type is possible at the easy tier. -/
theorem generateQuestion_easy_types (d : Difficulty) (w : ℤ) (count : ℕ) (now : ℤ)
    (rand : ℕ → ℚ) (heff : adjustDifficultyForWave d w = .easy)
    (h0 : 0 ≤ rand 0) (h1 : rand 0 < 1) :
    (generateQuestion d w count now rand).type
      ∈ (["addition", "subtraction", "multiplication"] : List String) := by
  have hlow : (0 : ℤ) ≤ ⌊rand 0 * 3⌋ :=
    Int.floor_nonneg.mpr (by positivity)
  have hhigh : ⌊rand 0 * 3⌋ < 3 := by
    have h3 : rand 0 * 3 < 3 := by nlinarith
    exact Int.floor_lt.mpr (by exact_mod_cast h3)
  have hidx : ⌊rand 0 * 3⌋ = 0 ∨ ⌊rand 0 * 3⌋ = 1 ∨ ⌊rand 0 * 3⌋ = 2 := by omega
  unfold generateQuestion
  rw [heff]
  rcases hidx with h | h | h <;>
    simp [getQuestionTypes, h, createQuestion, createAdditionQuestion,
      createSubtractionQuestion, createMultiplicationQuestion]

/-- Witness for the amended C2 at a concrete input: with draw 0 the generated
easy question is an addition question, a member of the easy menu. -/
theorem generateQuestion_easy_types_witness :
    (generateQuestion .easy 1 0 0 (fun _ => 0)).type
      ∈ (["addition", "subtraction", "multiplication"] : List String) :=
  generateQuestion_easy_types .easy 1 0 0 (fun _ => 0) (by decide) le_rfl (by norm_num)

/-- Claim C3: evaluation of the mixed-question generator at the failing input.
When both operator draws choose `×` (with operands 2, 2, 3) the displayed text
is `2 × 2 × 3 = ?` but the stored answer is `2·2 − 3 = 1`, not the displayed
expression's value 12: the second `×` falls into the subtraction arm of the
result computation, contradicting the claimed precedence-correct evaluation. -/
theorem createMixedQuestion_precedence_bug :
    (createMixedQuestion "q" .easy 30000 mixedBugRand).text = "2 × 2 × 3 = ?" ∧
    (createMixedQuestion "q" .easy 30000 mixedBugRand).answer = 1 ∧
    (2 * 2 * 3 : ℤ) = 12 ∧
    (createMixedQuestion "q" .easy 30000 mixedBugRand).answer ≠ 12 := by
  have heval : createMixedQuestion "q" .easy 30000 mixedBugRand =
      { id := "q", text := "2 × 2 × 3 = ?", answer := 1, difficulty := .easy,
        type := "mixed", timeLimit := 30000, category := some "arithmetic" } := by
    norm_num [createMixedQuestion, mixedBugRand, List.getD]
    decide
  rw [heval]
  refine ⟨rfl, rfl, by norm_num, by decide⟩

/-- Counterexample to claim C6 as stated: calling `destroyMonster` (with
animation) on a monster already being destroyed is not a no-op — the
`withAnimation && !isDestroying` guard fails, so the call takes the
immediate-removal branch: the monster is spliced out of the list and the
destroyed callback fires from that call. -/
theorem destroyMonster_destroying_cx :
    (destroyMonster [mkMonster "m1" 100 100 25 true 0] "m1" true 1000).monsters = [] ∧
    (destroyMonster [mkMonster "m1" 100 100 25 true 0] "m1" true 1000).destroyedEvents
      = ["m1"] ∧
    ([] : List EngineMonster) ≠ [mkMonster "m1" 100 100 25 true 0] := by
  refine ⟨?_, ?_, by simp⟩ <;> rfl

/-- Claim C6 as amended: `destroyMonster` with an id absent from the live list
changes nothing and fires nothing; but on a monster that is already being
destroyed it takes the immediate-removal branch — the monster is removed at
once and the destroyed callback fires from that call (regardless of
`withAnimation`), rather than being a no-op. -/
theorem destroyMonster_unknown_and_destroying (ms : List EngineMonster) (id : String)
    (anim : Bool) (now : ℤ) :
    ((∀ m ∈ ms, m.data.id ≠ id) → destroyMonster ms id anim now = ⟨ms, [], []⟩) ∧
    (∀ pre m post, ms = pre ++ m :: post → (∀ m' ∈ pre, m'.data.id ≠ id) →
      m.data.id = id → m.data.isDestroying = true →
      destroyMonster ms id anim now = ⟨pre ++ post, [], [id]⟩) := by
  constructor
  · intro habs
    induction ms with
    | nil => rfl
    | cons m rest ih =>
      have hm : m.data.id ≠ id := habs m (by simp)
      have hrest := ih fun m' hm' => habs m' (by simp [hm'])
      simp [destroyMonster, hm, hrest]
  · intro pre
    induction pre generalizing ms with
    | nil =>
      intro m post hms _ hid hdestroying
      subst hms
      simp [destroyMonster, hid, hdestroying]
    | cons p pre' ih =>
      intro m post hms hpre hid hdestroying
      subst hms
      have hp : p.data.id ≠ id := hpre p (by simp)
      have hrec := ih (pre' ++ m :: post) m post rfl
        (fun m' hm' => hpre m' (by simp [hm'])) hid hdestroying
      simp [destroyMonster, hp, hrec]

/-- Witness for the amended C6 at a concrete input: destroying an id that is
not in the list leaves the list, the schedule and the callbacks untouched. -/
theorem destroyMonster_unknown_and_destroying_witness :
    destroyMonster [mkMonster "m2" 100 100 25 false 0] "zzz" true 1000
      = ⟨[mkMonster "m2" 100 100 25 false 0], [], []⟩ :=
  (destroyMonster_unknown_and_destroying [mkMonster "m2" 100 100 25 false 0] "zzz" true
    1000).1 (by simp [mkMonster])

/-- `monsterUpdate` does not change a monster's id. -/
theorem monsterUpdate_id (m : EngineMonster) (dt : ℚ) (p : Point) (now : ℤ) :
    (monsterUpdate m dt p now).data.id = m.data.id := rfl

/-- Unfolding: `engineTick` skips a monster that is already being
destroyed. -/
theorem engineTick_cons_destroying (m : EngineMonster) (rest : List EngineMonster)
    (p : Point) (now : ℤ) (dt : ℚ) (h : m.data.isDestroying = true) :
    engineTick (m :: rest) p now dt
      = ((engineTick rest p now dt).1, m :: (engineTick rest p now dt).2) := by
  conv_lhs => rw [engineTick]
  simp [h]

/-- Unfolding: a non-destroying, non-colliding monster is updated and kept. -/
theorem engineTick_cons_clear (m : EngineMonster) (rest : List EngineMonster)
    (p : Point) (now : ℤ) (dt : ℚ) (h1 : m.data.isDestroying = false)
    (h2 : monsterIsAttacking (monsterUpdate m dt p now) p PLAYER_RADIUS = false) :
    engineTick (m :: rest) p now dt
      = (.posUpdate (monsterUpdate m dt p now).data.id :: (engineTick rest p now dt).1,
        monsterUpdate m dt p now :: (engineTick rest p now dt).2) := by
  conv_lhs => rw [engineTick]
  simp [h1, h2]

/-- Unfolding: a colliding monster at the end of the list fires its callbacks
and is removed. -/
theorem engineTick_attacking_nil (m : EngineMonster) (p : Point) (now : ℤ) (dt : ℚ)
    (h1 : m.data.isDestroying = false)
    (h2 : monsterIsAttacking (monsterUpdate m dt p now) p PLAYER_RADIUS = true) :
    engineTick [m] p now dt
      = ([.posUpdate (monsterUpdate m dt p now).data.id,
          .reachedPlayer (monsterUpdate m dt p now).data.id
            (getMonsterDamage (monsterUpdate m dt p now).data.type),
          .monsterDestroyed (monsterUpdate m dt p now).data.id], []) := by
  conv_lhs => rw [engineTick]
  simp [h1, h2]

/-- Unfolding: a colliding monster fires its callbacks, is removed, and — via
the `forEach` index shift — the immediately following monster is carried over
without being visited this tick. -/
theorem engineTick_attacking_cons (m skipped : EngineMonster)
    (rest' : List EngineMonster) (p : Point) (now : ℤ) (dt : ℚ)
    (h1 : m.data.isDestroying = false)
    (h2 : monsterIsAttacking (monsterUpdate m dt p now) p PLAYER_RADIUS = true) :
    engineTick (m :: skipped :: rest') p now dt
      = (.posUpdate (monsterUpdate m dt p now).data.id ::
          .reachedPlayer (monsterUpdate m dt p now).data.id
            (getMonsterDamage (monsterUpdate m dt p now).data.type) ::
          .monsterDestroyed (monsterUpdate m dt p now).data.id ::
          (engineTick rest' p now dt).1,
        skipped :: (engineTick rest' p now dt).2) := by
  conv_lhs => rw [engineTick]
  simp [h1, h2]

/-- Per-tick trace properties of `engineTick`, proved by strong induction on
the list length: every reached-player callback fires immediately after the
same monster's position update (for any incoming checker state), and the
reached-player ids form a sublist of the monster list's ids in order. -/
theorem engineTick_trace_props : ∀ (n : ℕ) (ms : List EngineMonster), ms.length ≤ n →
    ∀ (p : Point) (now : ℤ) (dt : ℚ),
    (∀ last, reachedAfterOwnUpdate last (engineTick ms p now dt).1 = true) ∧
    List.Sublist (reachedIds (engineTick ms p now dt).1)
      (ms.map fun m => m.data.id) := by
  intro n
  induction n with
  | zero =>
    intro ms hlen p now dt
    have : ms = [] := List.length_eq_zero.mp (Nat.le_zero.mp hlen)
    subst this
    exact ⟨fun _ => rfl, by simp [engineTick, reachedIds]⟩
  | succ n ih =>
    intro ms hlen p now dt
    match ms with
    | [] => exact ⟨fun _ => rfl, by simp [engineTick, reachedIds]⟩
    | m :: rest =>
      have hlen' : rest.length ≤ n := by simpa using hlen
      cases hd : m.data.isDestroying with
      | true =>
        rw [engineTick_cons_destroying m rest p now dt hd]
        obtain ⟨ha, hs⟩ := ih rest hlen' p now dt
        exact ⟨fun last => ha last, hs.trans (List.sublist_cons_self _ _)⟩
      | false =>
        cases hatt : monsterIsAttacking (monsterUpdate m dt p now) p PLAYER_RADIUS with
        | false =>
          rw [engineTick_cons_clear m rest p now dt hd hatt]
          obtain ⟨ha, hs⟩ := ih rest hlen' p now dt
          refine ⟨fun last => ?_, ?_⟩
          · simpa [reachedAfterOwnUpdate] using
              ha (some (monsterUpdate m dt p now).data.id)
          · simpa [reachedIds] using hs.trans (List.sublist_cons_self _ _)
        | true =>
          match rest with
          | [] =>
            rw [engineTick_attacking_nil m p now dt hd hatt]
            refine ⟨fun last => by simp [reachedAfterOwnUpdate, reachedIds], ?_⟩
            simp [reachedIds, monsterUpdate_id]
          | skipped :: rest' =>
            have hlen'' : rest'.length ≤ n := by
              simp only [List.length_cons] at hlen'
              omega
            rw [engineTick_attacking_cons m skipped rest' p now dt hd hatt]
            obtain ⟨ha, hs⟩ := ih rest' hlen'' p now dt
            refine ⟨fun last => ?_, ?_⟩
            · simpa [reachedAfterOwnUpdate] using ha none
            · simp only [reachedIds, monsterUpdate_id, List.map_cons]
              exact (hs.trans (List.sublist_cons_self _ _)).cons₂ _

/-- Counterexample to claim C7 as stated: with a colliding monster at the head
of the list, its reached-player callback fires before the later monsters'
position updates — the trace is update(mA), reached(mA), destroyed(mA),
update(mC), violating "all position updates complete before any callback";
the removal of mA during iteration also skips mB for this tick. -/
theorem engineTick_interleaving_cx :
    (engineTick [mkMonster "mA" 100 100 25 false 0, mkMonster "mB" (-250) 300 25 false 5000,
        mkMonster "mC" (-250) 300 25 false 5000] ⟨400, 300⟩ 5000 16).1
      = [.posUpdate "mA", .reachedPlayer "mA" 1, .monsterDestroyed "mA", .posUpdate "mC"] ∧
    updatesPrecedeCallbacks
      (engineTick [mkMonster "mA" 100 100 25 false 0, mkMonster "mB" (-250) 300 25 false 5000,
        mkMonster "mC" (-250) 300 25 false 5000] ⟨400, 300⟩ 5000 16).1 = false := by
  have hattA : monsterIsAttacking
      (monsterUpdate (mkMonster "mA" 100 100 25 false 0) 16 ⟨400, 300⟩ 5000) ⟨400, 300⟩
      PLAYER_RADIUS = true := by
    norm_num [monsterUpdate, monsterIsAttacking, mkMonster, jsFalsyOpt, PLAYER_RADIUS]
  have hattC : monsterIsAttacking
      (monsterUpdate (mkMonster "mC" (-250) 300 25 false 5000) 16 ⟨400, 300⟩ 5000)
      ⟨400, 300⟩ PLAYER_RADIUS = false := by
    norm_num [monsterUpdate, monsterIsAttacking, mkMonster, jsFalsyOpt, PLAYER_RADIUS]
  have heval : (engineTick [mkMonster "mA" 100 100 25 false 0,
      mkMonster "mB" (-250) 300 25 false 5000, mkMonster "mC" (-250) 300 25 false 5000]
      ⟨400, 300⟩ 5000 16).1
      = [.posUpdate "mA", .reachedPlayer "mA" 1, .monsterDestroyed "mA", .posUpdate "mC"] := by
    rw [engineTick_attacking_cons _ _ _ _ _ _ rfl hattA,
      engineTick_cons_clear _ _ _ _ _ rfl hattC]
    rfl
  rw [heval]
  exact ⟨rfl, rfl⟩

/-- Claim C7 as amended: within one tick, each colliding monster's
reached-player callback fires immediately after that monster's own position
update (hence before any later monster's update), and the reached-player
callbacks of the tick fire in the monster list's insertion order (their ids
form an ordered sublist of the list's ids). -/
theorem engineTick_callback_order (ms : List EngineMonster) (p : Point) (now : ℤ)
    (dt : ℚ) :
    reachedAfterOwnUpdate none (engineTick ms p now dt).1 = true ∧
    List.Sublist (reachedIds (engineTick ms p now dt).1)
      (ms.map fun m => m.data.id) := by
  obtain ⟨h1, h2⟩ := engineTick_trace_props ms.length ms le_rfl p now dt
  exact ⟨h1 none, h2⟩

/-- Counterexample to claim C8 as stated: a monster spawned at time 0 sits at
x = 200 (progress 0.2) when the engine is paused after a tick at t = 1000; a
tick while paused changes nothing, but after resuming at t = 3000 the next
tick places it at x = 300 (progress 0.6) — the pause duration is counted into
its travel progress, so it does not continue from the position it had at the
moment of pausing. -/
theorem enginePause_resume_cx :
    engineStep (enginePause (engineStep
        ⟨⟨400, 300⟩, [mkMonster "m8" 150 300 25 false 0], 0, 0, true⟩ 1000)) 2000
      = enginePause (engineStep
        ⟨⟨400, 300⟩, [mkMonster "m8" 150 300 25 false 0], 0, 0, true⟩ 1000) ∧
    (engineStep ⟨⟨400, 300⟩, [mkMonster "m8" 150 300 25 false 0], 0, 0, true⟩
        1000).monsters.map (fun m => m.data.x) = [200] ∧
    (engineStep (engineStart (enginePause (engineStep
        ⟨⟨400, 300⟩, [mkMonster "m8" 150 300 25 false 0], 0, 0, true⟩ 1000)) 3000)
        3000).monsters.map (fun m => m.data.x) = [300] ∧
    (200 : ℚ) ≠ 300 := by
  have hstep1 : engineStep ⟨⟨400, 300⟩, [mkMonster "m8" 150 300 25 false 0], 0, 0, true⟩
      1000 = ⟨⟨400, 300⟩,
        [⟨{ id := "m8", x := 200, y := 300, health := 2, maxHealth := 2, speed := 3 / 100,
            targetX := 400, targetY := 300, type := .basic, color := "#f97316", size := 25,
            spawnX := some 150, spawnY := some 300 }, 0⟩], 0, 1000, true⟩ := by
    norm_num [engineStep, engineTick, monsterUpdate, monsterIsAttacking, mkMonster,
      jsFalsyOpt, PLAYER_RADIUS]
  rw [hstep1]
  refine ⟨?_, by norm_num, ?_, by norm_num⟩
  · rfl
  · norm_num [engineStep, engineStart, enginePause, engineTick, monsterUpdate,
      monsterIsAttacking, jsFalsyOpt, PLAYER_RADIUS]

/-- Claim C8 as amended: `pause()` does stop the ticks — a tick on a paused
engine changes nothing — and the paused state is preserved; but a monster's
travel progress is computed from wall-clock time since spawn,
`min((now − spawnTime)/5000, 1)`, so the first tick after resuming places
every monster at the position corresponding to the total wall-clock elapsed
time (pause included), not at the position it had at the moment of pausing. -/
theorem enginePause_wallClock_progress :
    (∀ (s : EngineState) (now : ℤ), s.isRunning = false → engineStep s now = s) ∧
    (∀ (m : EngineMonster) (dt : ℚ) (p : Point) (now : ℤ) (sx sy : ℚ),
      m.data.spawnX = some sx → sx ≠ 0 → m.data.spawnY = some sy → sy ≠ 0 →
      (monsterUpdate m dt p now).data.x
        = sx + (p.x - sx) * min (((now - m.spawnTime : ℤ) : ℚ) / 5000) 1 ∧
      (monsterUpdate m dt p now).data.y
        = sy + (p.y - sy) * min (((now - m.spawnTime : ℤ) : ℚ) / 5000) 1) := by
  constructor
  · intro s now h
    simp [engineStep, h]
  · intro m dt p now sx sy hsx hsx0 hsy hsy0
    have hfx : jsFalsyOpt (some sx) = false := by
      simp [jsFalsyOpt, hsx0]
    have hfy : jsFalsyOpt (some sy) = false := by
      simp [jsFalsyOpt, hsy0]
    constructor <;> simp [monsterUpdate, hsx, hsy, hfx, hfy]

/-- Witness for the amended C8 at a concrete input: a tick on a paused engine
leaves the state unchanged. -/
theorem enginePause_wallClock_progress_witness :
    engineStep ⟨⟨400, 300⟩, [], 0, 0, false⟩ 12345 = ⟨⟨400, 300⟩, [], 0, 0, false⟩ :=
  enginePause_wallClock_progress.1 ⟨⟨400, 300⟩, [], 0, 0, false⟩ 12345 rfl

/-- The speed stored by `createMonster` as a function of the chosen type: the
slow-down multipliers 0.9 (tank) and 0.8 (boss) applied to
`spawnDistance / 5000`. -/
theorem createMonster_speed_eq (wave : ℤ) (d : Difficulty) (sideR coordR typeR idR : ℚ)
    (now0 : ℤ) (dist : ℚ) :
    (createMonster wave d sideR coordR typeR idR now0 dist).speed =
      match (createMonster wave d sideR coordR typeR idR now0 dist).type with
      | .tank => dist / 5000 * (9 / 10)
      | .boss => dist / 5000 * (8 / 10)
      | _ => dist / 5000 := by
  simp only [createMonster]
  set t := (monsterTypePool wave).getD
    (⌊typeR * ((monsterTypePool wave).length : ℚ)⌋).toNat .basic with ht
  cases t <;> rfl

/-- Counterexample to claim C9 as stated: a tank monster created at wave 5
(spawned 550 px from the avatar, with the 0.9 slow-down multiplier stored in
its speed) is nevertheless exactly at the avatar's position when updated at
elapsed time 5000 ms — it does not reach the avatar strictly later than
5000 ms, because the movement interpolation never reads `speed`. -/
theorem createMonster_tank_arrival_cx :
    (createMonster 5 .medium 0 (1 / 2) (8 / 10) 0 0 550).type = .tank ∧
    (createMonster 5 .medium 0 (1 / 2) (8 / 10) 0 0 550).speed = 550 / 5000 * (9 / 10) ∧
    (monsterUpdate ⟨createMonster 5 .medium 0 (1 / 2) (8 / 10) 0 0 550, 0⟩ 16 ⟨400, 300⟩
      5000).data.x = 400 ∧
    (monsterUpdate ⟨createMonster 5 .medium 0 (1 / 2) (8 / 10) 0 0 550, 0⟩ 16 ⟨400, 300⟩
      5000).data.y = 300 := by
  have htype : (createMonster 5 .medium 0 (1 / 2) (8 / 10) 0 0 550).type = .tank := by
    norm_num [createMonster, monsterTypePool, List.getD]
    decide
  have hspeed := createMonster_speed_eq 5 .medium 0 (1 / 2) (8 / 10) 0 0 550
  rw [htype] at hspeed
  refine ⟨htype, hspeed, ?_, ?_⟩ <;>
    norm_num [createMonster, monsterTypePool, generateMonsterSpawnPoint, CANVAS_WIDTH,
      CANVAS_HEIGHT, List.getD, monsterUpdate, jsFalsyOpt]

/-- Claim C9 as amended: `createMonster` stores the slow-down multipliers at
creation — tank speed is `0.9 × (distance/5000)` and boss speed
`0.8 × (distance/5000)`, while basic and fast keep `distance/5000` — but the
stored speed never influences movement: `Monster.update` interpolates by
wall-clock time, so every monster of any type is exactly at the avatar's
position once 5000 ms have elapsed since spawn, tanks and bosses included. -/
theorem createMonster_slowdown_vs_arrival (wave : ℤ) (d : Difficulty)
    (sideR coordR typeR idR : ℚ) (now0 : ℤ) (dist : ℚ) :
    ((createMonster wave d sideR coordR typeR idR now0 dist).type = .tank →
      (createMonster wave d sideR coordR typeR idR now0 dist).speed
        = dist / 5000 * (9 / 10)) ∧
    ((createMonster wave d sideR coordR typeR idR now0 dist).type = .boss →
      (createMonster wave d sideR coordR typeR idR now0 dist).speed
        = dist / 5000 * (8 / 10)) ∧
    ((createMonster wave d sideR coordR typeR idR now0 dist).type = .basic ∨
        (createMonster wave d sideR coordR typeR idR now0 dist).type = .fast →
      (createMonster wave d sideR coordR typeR idR now0 dist).speed = dist / 5000) ∧
    (∀ (m : EngineMonster) (dt : ℚ) (p : Point) (t : ℤ), m.spawnTime + 5000 ≤ t →
      (monsterUpdate m dt p t).data.x = p.x ∧ (monsterUpdate m dt p t).data.y = p.y) := by
  have hspeed := createMonster_speed_eq wave d sideR coordR typeR idR now0 dist
  refine ⟨fun ht => ?_, fun ht => ?_, fun ht => ?_, fun m dt p t hle => ?_⟩
  · rw [ht] at hspeed
    exact hspeed
  · rw [ht] at hspeed
    exact hspeed
  · rcases ht with ht | ht <;> · rw [ht] at hspeed; exact hspeed
  · have hprog : min (((t - m.spawnTime : ℤ) : ℚ) / 5000) 1 = 1 := by
      refine min_eq_right ?_
      rw [le_div_iff₀ (by norm_num : (0 : ℚ) < 5000)]
      have : (5000 : ℚ) ≤ ((t - m.spawnTime : ℤ) : ℚ) := by
        exact_mod_cast Int.le_sub_left_of_add_le (by omega)
      linarith
    constructor <;>
      · simp only [monsterUpdate, hprog, mul_one]
        ring

/-- Witness for the amended C9 at a concrete input: a wave-1 monster is basic
and keeps the unscaled speed `distance / 5000`. -/
theorem createMonster_slowdown_vs_arrival_witness :
    (createMonster 1 .easy 0 0 0 0 0 100).speed = 100 / 5000 :=
  (createMonster_slowdown_vs_arrival 1 .easy 0 0 0 0 0 100).2.2.1
    (Or.inl (by norm_num [createMonster, monsterTypePool, List.getD]))

end MathArena
